import Mathlib

/-!
Shallow embedding of the DeepSeaGuard Insight Engine (the Python service
under microservices/insight-engine) together with proofs about its
specification.  Python dicts that cross module boundaries are modelled as
association lists of JSON-like values; machine floats that only flow
through threshold comparisons are modelled as rationals; floats that flow
through the WKT round trip are modelled by their repr token (Python
guarantees float(repr(x)) == x for finite x).  Database sessions are
modelled by explicit state passing; a transaction that raises is modelled
as leaving the state unchanged (rollback) where the caller catches the
exception, and as Except.error where it propagates.
-/

namespace DSG

/-- JSON-like value for open payload maps (Python dicts). -/
inductive JVal where
  | jnull : JVal
  | jstr : String → JVal
  | jnum : Rat → JVal
  | jarr : List JVal → JVal
  | jobj : List (String × JVal) → JVal

/-- Python equality of a dict.get result against a string literal: true
exactly when the key was present with that string value (None and
non-string values never equal a str). -/
def isJStr (v : Option JVal) (s : String) : Bool :=
  match v with
  | some (JVal.jstr t) => t == s
  | _ => false

/-- Open payload map, the image of a Python dict. -/
abbrev PyDict := List (String × JVal)

/-- Python dict.get: value of a key, none when the key is absent. -/
def pyGet (d : PyDict) (k : String) : Option JVal :=
  (d.find? (fun p => p.fst == k)).map Prod.snd

/-- Python truthiness of an optional string (None and the empty string
are falsy). -/
def pyTruthy (s : Option String) : Bool :=
  match s with
  | none => false
  | some v => !(v == "")

/- ## Python string primitives used by the WKT helpers.
Python str values are modelled as lists of characters. -/

/-- Whitespace test used by Python str.strip and str.split. -/
def pySpace (c : Char) : Bool := c.isWhitespace

/-- Python str.strip with no arguments. -/
def pyStrip (l : List Char) : List Char :=
  ((l.dropWhile pySpace).reverse.dropWhile pySpace).reverse

/-- Python str.startswith. -/
def pyStartsWith : List Char → List Char → Bool
  | _, [] => true
  | [], _ :: _ => false
  | c :: cs, p :: ps => c == p && pyStartsWith cs ps

/-- Python str.endswith. -/
def pyEndsWith (s p : List Char) : Bool :=
  pyStartsWith s.reverse p.reverse

/-- Python str.upper. -/
def pyUpper (l : List Char) : List Char := l.map Char.toUpper

/-- Worker for Python str.find on a single character. -/
def pyFindCharGo : List Char → Char → Int → Int
  | [], _, _ => -1
  | x :: xs, c, i => if x == c then i else pyFindCharGo xs c (i + 1)

/-- Python str.find for a single character: first index, or -1. -/
def pyFindChar (l : List Char) (c : Char) : Int :=
  pyFindCharGo l c 0

/-- Python str.replace for single characters. -/
def pyReplace (l : List Char) (a b : Char) : List Char :=
  l.map (fun c => if c == a then b else c)

/-- Worker for Python str.split with no arguments (split on whitespace
runs, dropping empty fields); acc holds the current token reversed. -/
def pySplitGo : List Char → List Char → List (List Char)
  | [], acc => if acc.isEmpty then [] else [acc.reverse]
  | c :: cs, acc =>
    if pySpace c then
      if acc.isEmpty then pySplitGo cs [] else acc.reverse :: pySplitGo cs []
    else pySplitGo cs (c :: acc)

/-- Python str.split with no arguments. -/
def pySplit (l : List Char) : List (List Char) := pySplitGo l []

/-- The literal string POINT( as a character list. -/
def POINT_PREFIX : List Char := ['P', 'O', 'I', 'N', 'T', '(']

/-- Characters that can occur in the repr of a finite Python float: the
ten digits, the decimal point, the signs, and the exponent marker. -/
def isFloatChar (c : Char) : Bool :=
  c == '0' || c == '1' || c == '2' || c == '3' || c == '4' || c == '5' ||
  c == '6' || c == '7' || c == '8' || c == '9' || c == '.' || c == '-' ||
  c == '+' || c == 'e'

/-- Token shape of the repr of a finite float: nonempty and made of
float characters only (so no whitespace, comma or parenthesis). -/
def isFloatTok (l : List Char) : Bool :=
  !l.isEmpty && l.all isFloatChar

/-- A finite Python float, identified with its canonical repr token
(CPython guarantees float(repr(x)) == x for every finite float x, so the
repr is a faithful identity for the value). -/
abbrev PyFloat := { l : List Char // isFloatTok l = true }

/-- Python float(s) applied to a string: whitespace is stripped and the
conversion succeeds exactly on float-shaped tokens. -/
def pyFloatOfStr (l : List Char) : Option PyFloat :=
  let w := pyStrip l
  if h : isFloatTok w = true then some ⟨w, h⟩ else none

/-- A JSON value in a position where the code may call float() on it:
a number, a string, or anything else (on which float() raises). -/
inductive PyVal where
  | pnum : PyFloat → PyVal
  | pstr : List Char → PyVal
  | pother : PyVal

/-- Python float(v): identity on floats, parse on strings, TypeError
(none) otherwise. -/
def pyToFloat : PyVal → Option PyFloat
  | .pnum f => some f
  | .pstr s => pyFloatOfStr s
  | .pother => none

/-- Mirrors wkt_from_latlon in app/services/telemetry_ingest.py: None if
either input is absent, else POINT(lon lat) unless a float conversion
raises. -/
def wkt_from_latlon (lat lon : Option PyVal) : Option (List Char) :=
  match lat, lon with
  | none, _ => none
  | _, none => none
  | some la, some lo =>
    match pyToFloat lo, pyToFloat la with
    | some flo, some fla =>
      some (POINT_PREFIX ++ flo.val ++ [' '] ++ fla.val ++ [')'])
    | _, _ => none

/-- Mirrors the private point parser in app/services/insights.py: strip,
check the POINT( prefix (case-insensitively) and the closing parenthesis,
split the interior on whitespace and commas, and convert the two fields
with float(), returning (lon, lat). -/
def _parse_point_wkt (wkt : Option (List Char)) : Option (PyFloat × PyFloat) :=
  match wkt with
  | none => none
  | some l =>
    if l.isEmpty then none
    else
      let w := pyStrip l
      if !(pyStartsWith (pyUpper w) POINT_PREFIX) || !(pyEndsWith w [')']) then none
      else
        let inner := (w.take (w.length - 1)).drop (pyFindChar w '(' + 1).toNat
        let parts := pySplit (pyReplace inner ',' ' ')
        match parts with
        | [p0, p1] =>
          match pyFloatOfStr p0, pyFloatOfStr p1 with
          | some lon, some lat => some (lon, lat)
          | _, _ => none
        | _ => none

/- ## Thresholds configuration (app/config/thresholds.py). -/

/-- A min and max band, image of the dict with keys min and max. -/
structure Band where
  min : Rat
  max : Rat
deriving Repr, DecidableEq

/-- Warning and critical bands for one parameter. -/
structure ParamThresholds where
  warning : Band
  critical : Band
deriving Repr, DecidableEq

/-- The full thresholds table keyed by parameter name. -/
structure Thresholds where
  temperature_c : ParamThresholds
  turbidity : ParamThresholds
deriving Repr, DecidableEq

/-- The compiled-in thresholds of app/config/thresholds.py. -/
def ENVIRONMENTAL_THRESHOLDS : Thresholds :=
  { temperature_c :=
      { warning := { min := mkRat 3 2, max := mkRat 5 2 },
        critical := { min := (1 : Rat), max := (3 : Rat) } },
    turbidity :=
      { warning := { min := mkRat 1 20, max := mkRat 1 4 },
        critical := { min := (0 : Rat), max := mkRat 3 10 } } }

/- ## Upstream telemetry message. -/

/-- The location object of a telemetry message; each coordinate may be
absent, a number, a string, or another JSON value. -/
structure LocMsg where
  lat : Option PyVal := none
  lon : Option PyVal := none

/-- One upstream telemetry message (a decoded JSON object).  For
temperature_c and turbidity the outer Option is key presence and the
inner Option distinguishes a JSON null from a number, so that the
TypeError behaviour of the band comparisons is expressible. -/
structure TelemetryMsg where
  auv_id : Option String := none
  timestamp : String := ""
  zone_id : Option String := none
  depth_m : Option Rat := none
  velocity_knots : Option Rat := none
  temperature_c : Option (Option Rat) := none
  turbidity : Option (Option Rat) := none
  location : Option LocMsg := none
  location_wkt : Option (List Char) := none

/- ## Environmental monitor (app/services/environmental_monitor.py). -/

/-- One per-parameter violation record, image of the dict literal built
by check_thresholds; note the level is stored under the key
threshold_type. -/
structure ParamViolation where
  parameter : String
  value : Rat
  threshold_type : String
  limits : Band
deriving Repr, DecidableEq

/-- The alert record returned by check_thresholds on a violation. -/
structure EnvReport where
  timestamp : String
  auv_id : Option String
  alerts : List ParamViolation
deriving Repr, DecidableEq

/-- Mirrors EnvironmentalMonitor.check_thresholds.  The now argument
stands for datetime.now.  A present null value makes the first band
comparison raise TypeError, modelled as Except.error. -/
def check_thresholds (th : Thresholds) (now : String) (telemetry : TelemetryMsg) :
    Except String (Option EnvReport) :=
  let alerts0 : List ParamViolation := []
  let step1 : Except String (List ParamViolation) :=
    match telemetry.temperature_c with
    | none => .ok alerts0
    | some none => .error "TypeError: NoneType and float comparison"
    | some (some temp) =>
      let tth := th.temperature_c
      if temp < tth.critical.min ∨ temp > tth.critical.max then
        .ok (alerts0 ++ [{ parameter := "temperature", value := temp,
                           threshold_type := "critical", limits := tth.critical }])
      else if temp < tth.warning.min ∨ temp > tth.warning.max then
        .ok (alerts0 ++ [{ parameter := "temperature", value := temp,
                           threshold_type := "warning", limits := tth.warning }])
      else .ok alerts0
  match step1 with
  | .error e => .error e
  | .ok alerts1 =>
    let step2 : Except String (List ParamViolation) :=
      match telemetry.turbidity with
      | none => .ok alerts1
      | some none => .error "TypeError: NoneType and float comparison"
      | some (some turb) =>
        let uth := th.turbidity
        if turb < uth.critical.min ∨ turb > uth.critical.max then
          .ok (alerts1 ++ [{ parameter := "turbidity", value := turb,
                             threshold_type := "critical", limits := uth.critical }])
        else if turb < uth.warning.min ∨ turb > uth.warning.max then
          .ok (alerts1 ++ [{ parameter := "turbidity", value := turb,
                             threshold_type := "warning", limits := uth.warning }])
        else .ok alerts1
    match step2 with
    | .error e => .error e
    | .ok alerts2 =>
      if alerts2 ≠ [] then
        .ok (some { timestamp := now, auv_id := telemetry.auv_id, alerts := alerts2 })
      else .ok none

/-- Stated from the spec sentence for one parameter: the critical band is
tested first, a value outside it records a critical violation, otherwise
a value outside the warning band records a warning violation. -/
def specViolation (name : String) (v : Rat) (p : ParamThresholds) : Option ParamViolation :=
  if v < p.critical.min ∨ v > p.critical.max then
    some { parameter := name, value := v, threshold_type := "critical", limits := p.critical }
  else if v < p.warning.min ∨ v > p.warning.max then
    some { parameter := name, value := v, threshold_type := "warning", limits := p.warning }
  else none

/-- Stated from the spec: the violations of a record are the temperature
violation (if the value is present) followed by the turbidity violation;
absent values are skipped. -/
def specViolations (th : Thresholds) (t : TelemetryMsg) : List ParamViolation :=
  (match t.temperature_c with
   | some (some v) => (specViolation "temperature" v th.temperature_c).toList
   | _ => []) ++
  (match t.turbidity with
   | some (some v) => (specViolation "turbidity" v th.turbidity).toList
   | _ => [])

/- ## Alert creation (app/services/alerts_ingest.py). -/

/-- Rendering of a band as the dict stored inside a payload. -/
def Band.toDict (b : Band) : PyDict :=
  [("min", JVal.jnum b.min), ("max", JVal.jnum b.max)]

/-- Rendering of a per-parameter violation as the dict produced by
check_thresholds; the level key is threshold_type. -/
def ParamViolation.toDict (v : ParamViolation) : PyDict :=
  [("parameter", JVal.jstr v.parameter),
   ("value", JVal.jnum v.value),
   ("threshold_type", JVal.jstr v.threshold_type),
   ("limits", JVal.jobj v.limits.toDict)]

/-- Rendering of a check_thresholds report as the dict that main.py
hands to create_environmental_alert as the payload. -/
def EnvReport.toDict (r : EnvReport) : PyDict :=
  [("timestamp", JVal.jstr r.timestamp),
   ("auv_id", match r.auv_id with
              | some a => JVal.jstr a
              | none => JVal.jnull),
   ("alerts", JVal.jarr (r.alerts.map (fun v => JVal.jobj v.toDict)))]

/-- Mirrors the private severity derivation of alerts_ingest.py: it reads
the key severity of each parameter alert dict. -/
def _derive_severity (alerts : List PyDict) : String :=
  if alerts.any (fun a => isJStr (pyGet a "severity") "critical") then "critical"
  else if alerts.any (fun a => isJStr (pyGet a "severity") "warning") then "warning"
  else "info"

/-- Python str() as used inside the message f-string. -/
def jvalStr : JVal → String
  | .jnull => "None"
  | .jstr s => s
  | .jnum q => toString q
  | .jarr _ => "[...]"
  | .jobj _ => "..."

/-- Python str() of the result of dict.get. -/
def pyStrOfOpt (v : Option JVal) : String :=
  match v with
  | none => "None"
  | some j => jvalStr j

/-- Mirrors the private message builder of alerts_ingest.py. -/
def _build_message (alerts : List PyDict) : String :=
  if alerts.isEmpty then "environmental ok"
  else
    String.intercalate ", " (alerts.map (fun a =>
      pyStrOfOpt (pyGet a "parameter") ++ "=" ++ pyStrOfOpt (pyGet a "value")
        ++ "(" ++ pyStrOfOpt (pyGet a "severity") ++ ")"))

/-- One row of the alerts table (app/models.py Alert). -/
structure AlertRow where
  id : Nat
  auv_id : String
  type : String
  severity : String
  message : String
  payload : PyDict
  status : String

/-- The alerts table with its id sequence. -/
structure AlertsDb where
  rows : List AlertRow := []
  nextId : Nat := 1

/-- The row condition of the dedupe lookup: same auv_id and type and
status active. -/
def matchesActive (auv_id ty : String) (r : AlertRow) : Bool :=
  r.auv_id == auv_id && r.type == ty && r.status == "active"

/-- Mirrors the dedupe lookup of create_alert: first row with the given
auv_id and type whose status is active. -/
def find_active (db : AlertsDb) (auv_id ty : String) : Option AlertRow :=
  db.rows.find? (matchesActive auv_id ty)

/-- The payload mutation inside create_alert: store the telemetry
reference inside the payload when given and not already present. -/
def payload_with_tid (payload : PyDict) (telemetry_id : Option Nat) : PyDict :=
  match telemetry_id with
  | some tid =>
    if (pyGet payload "telemetry_id").isNone then
      payload ++ [("telemetry_id", JVal.jnum (tid : Rat))]
    else payload
  | none => payload

/-- The row inserted by create_alert when no active duplicate exists. -/
def newAlertRow (db : AlertsDb) (auv_id ty severity message : String)
    (payload : PyDict) (status : String) (telemetry_id : Option Nat) : AlertRow :=
  { id := db.nextId, auv_id := auv_id, type := ty, severity := severity,
    message := message, payload := payload_with_tid payload telemetry_id, status := status }

/-- Mirrors create_alert of alerts_ingest.py.  Returns the updated table
and the alert id (existing on a dedupe hit, otherwise new). -/
def create_alert (db : AlertsDb) (auv_id ty severity message : String)
    (payload : PyDict) (status : String) (telemetry_id : Option Nat) (dedupe : Bool) :
    AlertsDb × Nat :=
  match (if dedupe then find_active db auv_id ty else none) with
  | some r => (db, r.id)
  | none =>
    let row := newAlertRow db auv_id ty severity message payload status telemetry_id
    ({ rows := db.rows ++ [row], nextId := db.nextId + 1 }, db.nextId)

/-- Mirrors create_environmental_alert; the Python payload argument is
the check_thresholds report dict, so payload.get of alerts is the list
of parameter violation dicts. -/
def create_environmental_alert (db : AlertsDb) (auv_id : String) (report : EnvReport)
    (telemetry_id : Option Nat) : AlertsDb × Nat :=
  let alerts : List PyDict := report.alerts.map ParamViolation.toDict
  let severity := _derive_severity alerts
  let message := _build_message alerts
  let full_payload :=
    report.toDict ++
      (match telemetry_id with
       | some tid => [("telemetry_id", JVal.jnum (tid : Rat))]
       | none => [])
  create_alert db auv_id "environmental" severity message full_payload "active" telemetry_id true

/-- Mirrors create_zone_violation_alert. -/
def create_zone_violation_alert (db : AlertsDb) (auv_id : String) (telemetry_id : Nat)
    (zone_id : String) : AlertsDb × Nat :=
  let payload : PyDict :=
    [("zone_id", JVal.jstr zone_id),
     ("violation", JVal.jstr "outside"),
     ("telemetry_id", JVal.jnum (telemetry_id : Rat))]
  let message := "AUV " ++ auv_id ++ " outside allowed zone " ++ zone_id
  create_alert db auv_id "zone_violation" "critical" message payload "active" (some telemetry_id) true

/-- Mirrors create_dead_auv_alert_generic. -/
def create_dead_auv_alert_generic (db : AlertsDb) (auv_id : String) (last_seen_iso : String)
    (threshold_seconds : Nat) : AlertsDb × Nat :=
  let payload : PyDict :=
    [("last_seen", JVal.jstr last_seen_iso),
     ("threshold_seconds", JVal.jnum (threshold_seconds : Rat))]
  let message := "AUV " ++ auv_id ++ " silent beyond " ++ toString threshold_seconds ++ "s"
  create_alert db auv_id "dead_auv" "critical" message payload "active" none true

/-- One call to an alert-creation wrapper. -/
inductive AlertOp where
  | env : String → EnvReport → Option Nat → AlertOp
  | zone : String → Nat → String → AlertOp
  | dead : String → String → Nat → AlertOp

/-- Apply one alert-creation call to the alerts table. -/
def applyAlertOp (db : AlertsDb) : AlertOp → AlertsDb × Nat
  | .env a r t => create_environmental_alert db a r t
  | .zone a tid z => create_zone_violation_alert db a tid z
  | .dead a ls th => create_dead_auv_alert_generic db a ls th

/-- Run a finite sequence of alert-creation calls. -/
def runAlertOps (ops : List AlertOp) (db : AlertsDb) : AlertsDb :=
  ops.foldl (fun d op => (applyAlertOp d op).fst) db

/-- Number of active alert rows for a vehicle and kind in a row list. -/
def activeCountRows (rows : List AlertRow) (v k : String) : Nat :=
  (rows.filter (matchesActive v k)).length

/-- Number of active alert rows for a vehicle and kind. -/
def activeCount (db : AlertsDb) (v k : String) : Nat :=
  activeCountRows db.rows v k

/-- The empty alerts table. -/
def emptyAlertsDb : AlertsDb := {}

/- ## Persistent store (app/models.py) and telemetry ingest
(app/services/telemetry_ingest.py). -/

/-- One row of the telemetry table.  hasGeom records whether the geom
column was populated from the WKT. -/
structure TelemetryRow where
  id : Nat
  auv_id : String
  timestamp : String
  zone_id : Option String
  depth_m : Option Rat
  velocity_knots : Option Rat
  temperature_c : Option Rat
  turbidity : Option Rat
  location_wkt : Option (List Char)
  hasGeom : Bool
  zone_violation : Option String

/-- One row of the zones table; only the identity and the presence of a
geometry matter to the zone detector. -/
structure ZoneRow where
  zone_id : String
  hasGeom : Bool

/-- The persistent store: telemetry, zones, last-seen map, alerts. -/
structure Db where
  telemetry : List TelemetryRow := []
  nextTelemetryId : Nat := 1
  zones : List ZoneRow := []
  auv_status : List (String × String) := []
  alerts : AlertsDb := {}

/-- Row of the telemetry table by id. -/
def lookupTelemetry (db : Db) (tid : Nat) : Option TelemetryRow :=
  db.telemetry.find? (fun r => r.id == tid)

/-- Mirrors the ON CONFLICT upsert of auv_status. -/
def upsert_last_seen (st : List (String × String)) (auv ts : String) : List (String × String) :=
  if st.any (fun p => p.fst == auv) then
    st.map (fun p => if p.fst == auv then (auv, ts) else p)
  else st ++ [(auv, ts)]

/-- The WKT selection of ingest_telemetry: an explicit truthy
location_wkt wins, otherwise it is derived from the location object. -/
def telemetry_location_wkt (tel : TelemetryMsg) : Option (List Char) :=
  let loc : LocMsg :=
    match tel.location with
    | some l => l
    | none => { lat := none, lon := none }
  let fromMsg : Option (List Char) :=
    match tel.location_wkt with
    | some w => if w.isEmpty then none else some w
    | none => none
  match fromMsg with
  | some w => some w
  | none => wkt_from_latlon loc.lat loc.lon

/-- The telemetry row that ingest_telemetry inserts. -/
def newTelemetryRow (db : Db) (auv : String) (tel : TelemetryMsg) : TelemetryRow :=
  { id := db.nextTelemetryId, auv_id := auv, timestamp := tel.timestamp,
    zone_id := tel.zone_id, depth_m := tel.depth_m,
    velocity_knots := tel.velocity_knots,
    temperature_c := tel.temperature_c.bind id,
    turbidity := tel.turbidity.bind id,
    location_wkt := telemetry_location_wkt tel,
    hasGeom := (telemetry_location_wkt tel).isSome,
    zone_violation := none }

/-- Mirrors ingest_telemetry: insert the row (deriving the WKT from the
location when none was supplied), set the geom column when a WKT is
present, and upsert last_seen.  Returns none when the insert raises
(here: a missing auv_id violating the NOT NULL column). -/
def ingest_telemetry (db : Db) (tel : TelemetryMsg) : Option (Db × Nat) :=
  match tel.auv_id with
  | none => none
  | some auv =>
    let row := newTelemetryRow db auv tel
    some ({ db with telemetry := db.telemetry ++ [row],
                    nextTelemetryId := db.nextTelemetryId + 1,
                    auv_status := upsert_last_seen db.auv_status auv tel.timestamp },
          db.nextTelemetryId)

/- ## Zone detector (app/services/zone_detector.py). -/

/-- Mirrors the private telemetry info query: auv_id and zone_id of the
row, or a pair of none when the row is missing. -/
def _get_telemetry_info (db : Db) (tid : Nat) : Option String × Option String :=
  match lookupTelemetry db tid with
  | some r => (some r.auv_id, r.zone_id)
  | none => (none, none)

/-- Mirrors the containment query: some result only when the zone exists
with a geometry and the telemetry row has a geometry; the spherical
ST_Contains decision itself is the store oracle contains. -/
def _is_inside_allowed_zone (contains : String → Nat → Bool) (db : Db) (tid : Nat)
    (zid : String) : Option Bool :=
  match db.zones.find? (fun z => z.zone_id == zid && z.hasGeom), lookupTelemetry db tid with
  | some _, some t => if t.hasGeom then some (contains zid tid) else none
  | _, _ => none

/-- Mirrors the zone_violation column update. -/
def _update_zone_violation (db : Db) (tid : Nat) (v : Option String) : Db :=
  { db with telemetry :=
      db.telemetry.map (fun r => if r.id == tid then { r with zone_violation := v } else r) }

/-- The summary dict returned by detect_zone_violation on a violation. -/
structure ZoneSummary where
  type : String
  violation : String
  zone_id : String
  telemetry_id : Nat
deriving Repr, DecidableEq

/-- Mirrors detect_zone_violation: read info and containment in a read
session, then mutate in a write transaction as decided. -/
def detect_zone_violation (contains : String → Nat → Bool) (db : Db) (tid : Nat) :
    Db × Option ZoneSummary :=
  let info := _get_telemetry_info db tid
  let auv_id := info.fst
  let zone_id := info.snd
  let inside : Option Bool :=
    if pyTruthy zone_id then _is_inside_allowed_zone contains db tid (zone_id.getD "")
    else none
  if pyTruthy zone_id && inside == some false then
    let db1 := _update_zone_violation db tid (some "outside")
    let db2 :=
      if pyTruthy auv_id then
        { db1 with alerts :=
            (create_zone_violation_alert db1.alerts (auv_id.getD "") tid (zone_id.getD "")).fst }
      else db1
    (db2, some { type := "zone_violation", violation := "outside",
                 zone_id := zone_id.getD "", telemetry_id := tid })
  else if pyTruthy zone_id && inside == some true then
    (_update_zone_violation db tid none, none)
  else (db, none)

/- ## Telemetry pipeline (process_telemetry in app/main.py). -/

/-- Mirrors process_telemetry.  Each database phase runs in its own
session and transaction; insertFails, envDbFails and zoneDbFails model a
store exception inside the respective try block (caught, transaction
rolled back).  check_thresholds runs outside any try, so its TypeError
escapes: the second component is true when the call raised.  The
broadcasts carry no store state and are omitted. -/
def process_telemetry (contains : String → Nat → Bool) (now : String)
    (insertFails envDbFails zoneDbFails : Bool) (db0 : Db) (telemetry : TelemetryMsg) :
    Db × Bool :=
  let step1 : Db × Option Nat :=
    if insertFails then (db0, none)
    else
      match ingest_telemetry db0 telemetry with
      | some (db1, t) => (db1, some t)
      | none => (db0, none)
  let db1 := step1.fst
  let tid := step1.snd
  match check_thresholds ENVIRONMENTAL_THRESHOLDS now telemetry with
  | .error _ => (db1, true)
  | .ok report =>
    let db2 :=
      match report with
      | none => db1
      | some rep =>
        if envDbFails then db1
        else
          match telemetry.auv_id with
          | none => db1
          | some a => { db1 with alerts := (create_environmental_alert db1.alerts a rep tid).fst }
    let db3 :=
      match tid with
      | none => db2
      | some t => if zoneDbFails then db2 else (detect_zone_violation contains db2 t).fst
    (db3, false)

/- ## Insights query parameters (app/services/insights.py and the
insights endpoint of app/main.py). -/

/-- The allowed timeseries field names (a set in the source). -/
def TIMESERIES_ALLOWED_FIELDS : List String :=
  ["temperature_c", "depth_m", "velocity_knots", "location"]

/-- The InsightParams dataclass. -/
structure InsightParams where
  auv_id : Option String := none
  type : Option String := none
  limit : Int := 20
  summary : Bool := false
  summary_modes : Option (List String) := some ["timeseries"]
  window_minutes : Int := 20
  timeseries_limit : Int := 30
  timeseries_fields : Option (List String) := none

/-- The clamp block at the top of fetch_insights, applied to the params
it mutates; every later use of the params (including window_minutes for
the summary window) reads from this result. -/
def clampInsightParams (p : InsightParams) : InsightParams :=
  { p with limit := max 1 (min p.limit 100),
           timeseries_limit := max 10 (min p.timeseries_limit 200) }

/-- The timeseries field selection of fetch_insights: a truthy requested
list is filtered against the allowed set (unknown names silently
dropped), otherwise all allowed fields. -/
def requestedTimeseriesFields (p : InsightParams) : List String :=
  match p.timeseries_fields with
  | some fs =>
    if fs.isEmpty then TIMESERIES_ALLOWED_FIELDS
    else fs.filter (fun f => TIMESERIES_ALLOWED_FIELDS.contains f)
  | none => TIMESERIES_ALLOWED_FIELDS

/-- Mirrors the FastAPI Query declarations of the insights endpoint in
app/main.py: limit, window_minutes and timeseries_limit carry ge and le
validation bounds, and FastAPI rejects a request whose value violates
them with a validation error response instead of clamping. -/
def insights_endpoint_accepts (limit window_minutes timeseries_limit : Int) : Bool :=
  decide (1 ≤ limit ∧ limit ≤ 100 ∧ 1 ≤ window_minutes ∧ window_minutes ≤ 1440 ∧
          10 ≤ timeseries_limit ∧ timeseries_limit ≤ 200)

/- ## Fan-out hub (ConnectionManager in app/main.py). -/

/-- The hub: one asyncio lock and the subscriber list.  Subscribers are
identified by numbers. -/
structure HubState where
  locked : Bool := false
  active_connections : List Nat := []

/-- Acquiring the hub lock.  The asyncio lock is not reentrant, so an
acquire while the lock is held by the same task blocks that task
forever; within one task this is modelled as none. -/
def lockAcquire (s : HubState) : Option HubState :=
  if s.locked then none else some { s with locked := true }

/-- Releasing the hub lock. -/
def lockRelease (s : HubState) : HubState := { s with locked := false }

/-- Mirrors ConnectionManager.disconnect: acquire the lock, remove the
websocket when present, release. -/
def cm_disconnect (ws : Nat) (s : HubState) : Option HubState :=
  match lockAcquire s with
  | none => none
  | some s1 =>
    some (lockRelease { s1 with active_connections := s1.active_connections.erase ws })

/-- Mirrors ConnectionManager.broadcast: under the lock, send to every
subscriber (skipping those not in the connected state), collect the
subscribers whose send raised, then clean them up by calling disconnect
before the lock is released. -/
def cm_broadcast (connected raises : Nat → Bool) (s : HubState) : Option HubState :=
  match lockAcquire s with
  | none => none
  | some s1 =>
    let disconnected := s1.active_connections.filter (fun c => connected c && raises c)
    match disconnected.foldlM (fun st c => cm_disconnect c st) s1 with
    | none => none
    | some s2 => some (lockRelease s2)

/- ## Dead AUV scanner (app/services/dead_auv_monitor.py). -/

/-- The payload dict yielded per overdue vehicle. -/
structure DeadPayload where
  type : String
  auv_id : String
  last_seen : String
  threshold_seconds : Nat
deriving Repr, DecidableEq

/-- The payload built for one overdue (auv_id, last_seen) row. -/
def deadPayload (timeout : Nat) (p : String × String) : DeadPayload :=
  { type := "dead_auv", auv_id := p.fst, last_seen := p.snd, threshold_seconds := timeout }

/-- Mirrors one tick of dead_auv_scanner.  readResult is the overdue
query in its own read session (error when it raises; the tick-level
except catches it and yields nothing).  writeFails says whether the
per-vehicle alert write transaction raises; that exception is caught per
vehicle and the payload is yielded regardless. -/
def dead_auv_tick (timeout : Nat) (readResult : Except String (List (String × String)))
    (writeFails : String → Bool) (db : AlertsDb) : AlertsDb × List DeadPayload :=
  match readResult with
  | .error _ => (db, [])
  | .ok dead_auvs =>
    dead_auvs.foldl
      (fun acc p =>
        let db1 :=
          if writeFails p.fst then acc.fst
          else (create_dead_auv_alert_generic acc.fst p.fst p.snd timeout).fst
        (db1, acc.snd ++ [deadPayload timeout p]))
      (db, [])

/-- The environment of one scanner tick. -/
structure TickInput where
  readResult : Except String (List (String × String))
  writeFails : String → Bool

/-- The scanner loop over finitely many ticks: every tick runs inside
the loop-level try, so the loop reaches each subsequent tick whatever a
tick raised. -/
def dead_auv_run (timeout : Nat) (ticks : List TickInput) (db : AlertsDb) :
    AlertsDb × List DeadPayload :=
  ticks.foldl
    (fun acc t =>
      let r := dead_auv_tick timeout t.readResult t.writeFails acc.fst
      (r.fst, acc.snd ++ r.snd))
    (db, [])

/- ## Theorems. -/

/-- Boolean error test on an Except result. -/
def exceptIsError {ε α : Type} : Except ε α → Bool
  | .error _ => true
  | .ok _ => false

instance {ε α : Type} [DecidableEq ε] [DecidableEq α] : DecidableEq (Except ε α) := fun
  | .ok a, .ok b =>
    if h : a = b then .isTrue (by rw [h])
    else .isFalse (by intro hh; cases hh; exact h rfl)
  | .ok _, .error _ => .isFalse (by intro h; cases h)
  | .error _, .ok _ => .isFalse (by intro h; cases h)
  | .error a, .error b =>
    if h : a = b then .isTrue (by rw [h])
    else .isFalse (by intro hh; cases hh; exact h rfl)

/-- C5: for every telemetry record whose present values are numbers, the
threshold evaluator tests the critical band first and otherwise the
warning band per present parameter, skips absent values, and returns
None exactly when no violation was recorded, otherwise the report with
the vehicle id and the per-parameter violations (parameter, value, level
under the threshold_type key, limits). -/
theorem c5_check_thresholds_matches_spec (th : Thresholds) (now : String) (t : TelemetryMsg)
    (htemp : t.temperature_c ≠ some none) (hturb : t.turbidity ≠ some none) :
    check_thresholds th now t =
      .ok (if specViolations th t = [] then none
           else some { timestamp := now, auv_id := t.auv_id,
                       alerts := specViolations th t }) := by
  rcases ht : t.temperature_c with _ | (_ | v)
  · rcases hu : t.turbidity with _ | (_ | w)
    · simp [check_thresholds, specViolations, ht, hu]
    · exact absurd hu hturb
    · simp only [check_thresholds, specViolations, specViolation, ht, hu]
      split_ifs <;> simp_all
  · exact absurd ht htemp
  · rcases hu : t.turbidity with _ | (_ | w)
    · simp only [check_thresholds, specViolations, specViolation, ht, hu]
      split_ifs <;> simp_all
    · exact absurd hu hturb
    · simp only [check_thresholds, specViolations, specViolation, ht, hu]
      split_ifs <;> simp_all

/-- Concrete record for the C5 witness: temperature above the critical
band, turbidity absent. -/
def tC5 : TelemetryMsg :=
  { auv_id := some "AUV-1", temperature_c := some (some (mkRat 7 2)) }

/-- Witness for C5 at a concrete record. -/
theorem c5_check_thresholds_matches_spec_witness :
    check_thresholds ENVIRONMENTAL_THRESHOLDS "2025-01-01T00:00:00Z" tC5 =
      .ok (if specViolations ENVIRONMENTAL_THRESHOLDS tC5 = [] then none
           else some { timestamp := "2025-01-01T00:00:00Z", auv_id := tC5.auv_id,
                       alerts := specViolations ENVIRONMENTAL_THRESHOLDS tC5 }) :=
  c5_check_thresholds_matches_spec ENVIRONMENTAL_THRESHOLDS "2025-01-01T00:00:00Z" tC5
    (by decide) (by decide)

/-- C9: the threshold evaluator is not total over the optional-field
shape: any record carrying a present null temperature_c or turbidity
makes the band comparison raise TypeError, while a record with both keys
absent never raises. -/
theorem c9_check_thresholds_null_raises (th : Thresholds) (now : String) (t : TelemetryMsg) :
    ((t.temperature_c = some none ∨ t.turbidity = some none) →
      exceptIsError (check_thresholds th now t) = true) ∧
    (t.temperature_c = none → t.turbidity = none →
      exceptIsError (check_thresholds th now t) = false) := by
  constructor
  · rintro (h | h)
    · simp [check_thresholds, h, exceptIsError]
    · rcases ht : t.temperature_c with _ | (_ | v)
      · simp [check_thresholds, ht, h, exceptIsError]
      · simp [check_thresholds, ht, exceptIsError]
      · simp only [check_thresholds, ht, h]
        split_ifs <;> simp [exceptIsError]
  · intro h1 h2
    simp [check_thresholds, h1, h2, exceptIsError]

/-- Concrete records for the C9 witness: one with a present null
temperature, one with both keys absent. -/
def tC9null : TelemetryMsg := { auv_id := some "AUV-2", temperature_c := some none }

/-- Record with both optional keys absent, for the C9 witness. -/
def tC9empty : TelemetryMsg := { auv_id := some "AUV-2" }

/-- Witness for C9 at concrete records. -/
theorem c9_check_thresholds_null_raises_witness :
    exceptIsError (check_thresholds ENVIRONMENTAL_THRESHOLDS "t" tC9null) = true ∧
    exceptIsError (check_thresholds ENVIRONMENTAL_THRESHOLDS "t" tC9empty) = false :=
  ⟨(c9_check_thresholds_null_raises ENVIRONMENTAL_THRESHOLDS "t" tC9null).1 (Or.inl rfl),
   (c9_check_thresholds_null_raises ENVIRONMENTAL_THRESHOLDS "t" tC9empty).2 rfl rfl⟩

/-- Concrete record for C1: temperature 3.5 lies above the critical band
of the compiled-in thresholds. -/
def tC1 : TelemetryMsg :=
  { auv_id := some "AUV-1", temperature_c := some (some (mkRat 7 2)) }

/-- The report check_thresholds produces for tC1. -/
def repC1 : EnvReport :=
  { timestamp := "2025-01-01T00:00:00Z", auv_id := some "AUV-1",
    alerts := [{ parameter := "temperature", value := mkRat 7 2,
                 threshold_type := "critical",
                 limits := { min := (1 : Rat), max := (3 : Rat) } }] }

/-- C1 (code evaluation at the failing input): check_thresholds records
violations under the key threshold_type, while the severity derivation
of alerts_ingest.py reads the key severity; hence the report of a
critical temperature violation yields a derived severity of info, and
the environmental alert row created from that report is stored with
severity info instead of critical. -/
theorem c1_derived_severity_is_info_on_critical_report :
    check_thresholds ENVIRONMENTAL_THRESHOLDS "2025-01-01T00:00:00Z" tC1 = .ok (some repC1) ∧
    repC1.alerts.any (fun a => a.threshold_type == "critical") = true ∧
    _derive_severity (repC1.alerts.map ParamViolation.toDict) = "info" ∧
    ((create_environmental_alert emptyAlertsDb "AUV-1" repC1 none).fst.rows.map
      (fun r => r.severity)) = ["info"] :=
  ⟨by decide, by decide, by decide, by rfl⟩

/- ### C2: active-duplicate suppression. -/

/-- The duplicate-suppression invariant of the alerts table. -/
def AlertInv (db : AlertsDb) : Prop := ∀ v k, activeCount db v k ≤ 1

theorem activeCountRows_append (r1 r2 : List AlertRow) (v k : String) :
    activeCountRows (r1 ++ r2) v k = activeCountRows r1 v k + activeCountRows r2 v k := by
  simp [activeCountRows, List.filter_append]

theorem activeCountRows_single (row : AlertRow) (v k : String) :
    activeCountRows [row] v k = if matchesActive v k row then 1 else 0 := by
  simp only [activeCountRows, List.filter]
  split <;> simp_all

theorem find_active_none_count (db : AlertsDb) (a t : String)
    (h : find_active db a t = none) : activeCount db a t = 0 := by
  have h1 : ∀ r ∈ db.rows, ¬ (matchesActive a t r = true) := by
    simpa [find_active, List.find?_eq_none] using h
  have h2 : db.rows.filter (matchesActive a t) = [] := List.filter_eq_nil_iff.mpr h1
  simp [activeCount, activeCountRows, h2]

theorem create_alert_hit (db : AlertsDb) (a t s m st : String) (p : PyDict)
    (tid : Option Nat) (r : AlertRow) (hf : find_active db a t = some r) :
    create_alert db a t s m p st tid true = (db, r.id) := by
  unfold create_alert
  simp [hf]

theorem create_alert_miss (db : AlertsDb) (a t s m st : String) (p : PyDict)
    (tid : Option Nat) (hf : find_active db a t = none) :
    create_alert db a t s m p st tid true =
      ({ rows := db.rows ++ [newAlertRow db a t s m p st tid],
         nextId := db.nextId + 1 }, db.nextId) := by
  unfold create_alert
  simp [hf]

theorem create_alert_inv (db : AlertsDb) (a t s m : String) (p : PyDict)
    (tid : Option Nat) (h : AlertInv db) :
    AlertInv (create_alert db a t s m p "active" tid true).fst := by
  intro v k
  cases hf : find_active db a t with
  | some r =>
    rw [create_alert_hit db a t s m "active" p tid r hf]
    exact h v k
  | none =>
    rw [create_alert_miss db a t s m "active" p tid hf]
    show activeCountRows (db.rows ++ [newAlertRow db a t s m p "active" tid]) v k ≤ 1
    rw [activeCountRows_append, activeCountRows_single]
    by_cases hvk : v = a ∧ k = t
    · obtain ⟨rfl, rfl⟩ := hvk
      have hz : activeCountRows db.rows v k = 0 := find_active_none_count db v k hf
      rw [hz]
      split <;> simp
    · have hrow : matchesActive v k (newAlertRow db a t s m p "active" tid) = false := by
        have hne : ¬ (a = v ∧ t = k) := fun hh => hvk ⟨hh.1.symm, hh.2.symm⟩
        simp [newAlertRow, matchesActive, beq_iff_eq]
        tauto
      rw [hrow]
      simpa using h v k

theorem applyAlertOp_inv (db : AlertsDb) (op : AlertOp) (h : AlertInv db) :
    AlertInv (applyAlertOp db op).fst := by
  cases op with
  | env a rep tid => exact create_alert_inv db a "environmental" _ _ _ tid h
  | zone a tid z => exact create_alert_inv db a "zone_violation" _ _ _ (some tid) h
  | dead a ls th => exact create_alert_inv db a "dead_auv" _ _ _ none h

theorem runAlertOps_inv (ops : List AlertOp) (db : AlertsDb) (h : AlertInv db) :
    AlertInv (runAlertOps ops db) := by
  induction ops generalizing db with
  | nil => simpa [runAlertOps] using h
  | cons op rest ih =>
    simp only [runAlertOps, List.foldl_cons]
    exact ih (applyAlertOp db op).fst (applyAlertOp_inv db op h)

/-- C2: after any finite sequence of the three alert-creation operations
starting from an empty alerts table, at most one row per (vehicle, kind)
is active; and a create_alert call that finds an active row for its
(vehicle, kind) returns that row's id with the table unchanged (no
insert, no mutation). -/
theorem c2_active_duplicate_suppression :
    (∀ (ops : List AlertOp) (v k : String),
        activeCount (runAlertOps ops emptyAlertsDb) v k ≤ 1) ∧
    (∀ (db : AlertsDb) (a t s m st : String) (p : PyDict) (tid : Option Nat) (r : AlertRow),
        find_active db a t = some r →
        create_alert db a t s m p st tid true = (db, r.id)) := by
  constructor
  · intro ops v k
    refine runAlertOps_inv ops emptyAlertsDb ?_ v k
    intro v1 k1
    simp [activeCount, activeCountRows, emptyAlertsDb]
  · intro db a t s m st p tid r hf
    exact create_alert_hit db a t s m st p tid r hf

/-- Concrete table for the C2 witness: one active dead_auv row. -/
def dbC2 : AlertsDb :=
  { rows := [{ id := 5, auv_id := "A", type := "dead_auv", severity := "critical",
               message := "m", payload := [], status := "active" }],
    nextId := 6 }

/-- Witness for C2: a duplicate dead-vehicle creation keeps one active
row, and a create_alert call on a table holding a matching active row
returns its id unchanged. -/
theorem c2_active_duplicate_suppression_witness :
    activeCount (runAlertOps [AlertOp.dead "A" "t0" 60, AlertOp.dead "A" "t0" 60]
      emptyAlertsDb) "A" "dead_auv" ≤ 1 ∧
    create_alert dbC2 "A" "dead_auv" "critical" "m" [] "active" none true = (dbC2, 5) :=
  ⟨c2_active_duplicate_suppression.1 [AlertOp.dead "A" "t0" 60, AlertOp.dead "A" "t0" 60]
      "A" "dead_auv",
   c2_active_duplicate_suppression.2 dbC2 "A" "dead_auv" "critical" "m" "active" [] none
      { id := 5, auv_id := "A", type := "dead_auv", severity := "critical",
        message := "m", payload := [], status := "active" } rfl⟩

/- ### C4: zone evaluator behaviour. -/

theorem find?_update_zv (l : List TelemetryRow) (tid : Nat) (v : Option String) (tid2 : Nat) :
    (l.map (fun x => if x.id == tid then { x with zone_violation := v } else x)).find?
        (fun x => x.id == tid2) =
      (l.find? (fun x => x.id == tid2)).map
        (fun r => if r.id == tid then { r with zone_violation := v } else r) := by
  induction l with
  | nil => rfl
  | cons hd tl ih =>
    cases ht : hd.id == tid <;> cases h2 : hd.id == tid2 <;>
      simp only [List.map_cons, List.find?, ht, h2, Bool.false_eq_true, if_false, if_true,
        Option.map_some, Option.map_none] <;>
      first
        | exact ih
        | simp_all

theorem lookup_update_zone_violation (db : Db) (tid : Nat) (v : Option String) (tid2 : Nat) :
    lookupTelemetry (_update_zone_violation db tid v) tid2 =
      (lookupTelemetry db tid2).map
        (fun r => if r.id == tid then { r with zone_violation := v } else r) := by
  simp only [lookupTelemetry, _update_zone_violation]
  exact find?_update_zv db.telemetry tid v tid2

theorem lookup_id_matches (db : Db) (tid : Nat) (r : TelemetryRow)
    (h : lookupTelemetry db tid = some r) : (r.id == tid) = true := by
  unfold lookupTelemetry at h
  simpa using List.find?_some h

/-- Condition under which the zone evaluator has no decision: the row is
missing, the assigned zone is absent (null or empty), the zone row with
a geometry is absent, or the point has no geometry. -/
def zoneDecisionUndefined (db : Db) (tid : Nat) : Prop :=
  match lookupTelemetry db tid with
  | none => True
  | some r =>
    pyTruthy r.zone_id = false ∨
    db.zones.find? (fun z => z.zone_id == r.zone_id.getD "" && z.hasGeom) = none ∨
    r.hasGeom = false

/-- The alert row created for a zone violation (payload carries the zone
id, the literal outside, and the telemetry id). -/
def zoneAlertRow (adb : AlertsDb) (auv : String) (tid : Nat) (z : String) : AlertRow :=
  { id := adb.nextId, auv_id := auv, type := "zone_violation", severity := "critical",
    message := "AUV " ++ auv ++ " outside allowed zone " ++ z,
    payload := [("zone_id", JVal.jstr z), ("violation", JVal.jstr "outside"),
                ("telemetry_id", JVal.jnum (tid : Rat))],
    status := "active" }

theorem is_inside_reduces (contains : String → Nat → Bool) (db : Db) (tid : Nat)
    (z : String) (r : TelemetryRow) (hr : lookupTelemetry db tid = some r)
    (hz : (db.zones.find? (fun zr => zr.zone_id == z && zr.hasGeom)).isSome = true)
    (hg : r.hasGeom = true) :
    _is_inside_allowed_zone contains db tid z = some (contains z tid) := by
  obtain ⟨zr, hzr⟩ := Option.isSome_iff_exists.mp hz
  simp [_is_inside_allowed_zone, hzr, hr, hg]

/-- C4: the zone evaluator returns no decision and mutates nothing when
the assigned zone or the geometry is absent; on an inside decision it
clears the zone_violation state and returns no alert; on an outside
decision it sets zone_violation to outside, returns the summary with the
kind, outside, the zone id and the point id, and (for a fresh vehicle
and kind) appends an active critical zone_violation alert whose payload
carries the zone id, outside, and the point id. -/
theorem c4_detect_zone_violation_behaviour (contains : String → Nat → Bool)
    (db : Db) (tid : Nat) :
    (zoneDecisionUndefined db tid → detect_zone_violation contains db tid = (db, none)) ∧
    (∀ r, lookupTelemetry db tid = some r → pyTruthy r.zone_id = true →
      (db.zones.find? (fun z => z.zone_id == r.zone_id.getD "" && z.hasGeom)).isSome = true →
      r.hasGeom = true →
      ((contains (r.zone_id.getD "") tid = true →
        (detect_zone_violation contains db tid).snd = none ∧
        lookupTelemetry (detect_zone_violation contains db tid).fst tid =
          some { r with zone_violation := none } ∧
        (detect_zone_violation contains db tid).fst.alerts = db.alerts) ∧
       (contains (r.zone_id.getD "") tid = false →
        (detect_zone_violation contains db tid).snd =
          some { type := "zone_violation", violation := "outside",
                 zone_id := r.zone_id.getD "", telemetry_id := tid } ∧
        lookupTelemetry (detect_zone_violation contains db tid).fst tid =
          some { r with zone_violation := some "outside" } ∧
        (r.auv_id ≠ "" → find_active db.alerts r.auv_id "zone_violation" = none →
          (detect_zone_violation contains db tid).fst.alerts.rows =
            db.alerts.rows ++ [zoneAlertRow db.alerts r.auv_id tid (r.zone_id.getD "")])))) := by
  constructor
  · intro habs
    unfold zoneDecisionUndefined at habs
    unfold detect_zone_violation
    cases hr : lookupTelemetry db tid with
    | none => simp [_get_telemetry_info, hr, pyTruthy]
    | some r =>
      rw [hr] at habs
      rcases habs with h | h | h
      · simp [_get_telemetry_info, hr, h]
      · by_cases ht : pyTruthy r.zone_id = true
        · have hins : _is_inside_allowed_zone contains db tid (r.zone_id.getD "") = none := by
            simp [_is_inside_allowed_zone, h]
          simp [_get_telemetry_info, hr, ht, hins]
        · have ht2 : pyTruthy r.zone_id = false := by
            cases hpt : pyTruthy r.zone_id
            · rfl
            · exact absurd hpt ht
          simp [_get_telemetry_info, hr, ht2]
      · by_cases ht : pyTruthy r.zone_id = true
        · have hins : _is_inside_allowed_zone contains db tid (r.zone_id.getD "") = none := by
            unfold _is_inside_allowed_zone
            cases hzf : db.zones.find? (fun z => z.zone_id == r.zone_id.getD "" && z.hasGeom) with
            | none => simp
            | some zr => simp [hr, h]
          simp [_get_telemetry_info, hr, ht, hins]
        · have ht2 : pyTruthy r.zone_id = false := by
            cases hpt : pyTruthy r.zone_id
            · rfl
            · exact absurd hpt ht
          simp [_get_telemetry_info, hr, ht2]
  · intro r hr htruthy hzone hgeom
    have hins := is_inside_reduces contains db tid (r.zone_id.getD "") r hr hzone hgeom
    have hid := lookup_id_matches db tid r hr
    have hideq : r.id = tid := by simpa using hid
    constructor
    · intro hcont
      rw [hcont] at hins
      have heq : detect_zone_violation contains db tid =
          (_update_zone_violation db tid none, none) := by
        unfold detect_zone_violation
        simp [_get_telemetry_info, hr, htruthy, hins]
      refine ⟨by rw [heq], ?_, by rw [heq]; rfl⟩
      rw [heq]
      show lookupTelemetry (_update_zone_violation db tid none) tid = _
      rw [lookup_update_zone_violation, hr]
      simp [hideq]
    · intro hcont
      rw [hcont] at hins
      have heq : detect_zone_violation contains db tid =
          (let db1 := _update_zone_violation db tid (some "outside")
           let db2 :=
             if pyTruthy (some r.auv_id) then
               { db1 with alerts :=
                   (create_zone_violation_alert db1.alerts r.auv_id tid
                     (r.zone_id.getD "")).fst }
             else db1
           (db2, some { type := "zone_violation", violation := "outside",
                        zone_id := r.zone_id.getD "", telemetry_id := tid })) := by
        unfold detect_zone_violation
        simp [_get_telemetry_info, hr, htruthy, hins]
      refine ⟨by rw [heq], ?_, ?_⟩
      · rw [heq]
        have htel : (if pyTruthy (some r.auv_id) then
              { _update_zone_violation db tid (some "outside") with alerts :=
                  (create_zone_violation_alert
                    (_update_zone_violation db tid (some "outside")).alerts r.auv_id tid
                    (r.zone_id.getD "")).fst }
            else _update_zone_violation db tid (some "outside")).telemetry =
            (_update_zone_violation db tid (some "outside")).telemetry := by
          split <;> rfl
        show ((if pyTruthy (some r.auv_id) then _ else _) : Db).telemetry.find? _ = _
        rw [htel]
        show lookupTelemetry (_update_zone_violation db tid (some "outside")) tid = _
        rw [lookup_update_zone_violation, hr]
        simp [hideq]
      · intro hauv hfresh
        have htr : pyTruthy (some r.auv_id) = true := by
          simp [pyTruthy, hauv]
        rw [heq]
        simp only [htr, if_pos rfl, if_true]
        show (create_zone_violation_alert
            (_update_zone_violation db tid (some "outside")).alerts r.auv_id tid
            (r.zone_id.getD "")).fst.rows = _
        have halerts : (_update_zone_violation db tid (some "outside")).alerts = db.alerts := rfl
        rw [halerts]
        unfold create_zone_violation_alert
        rw [create_alert_miss _ _ _ _ _ _ _ _ hfresh]
        rfl

/-- Concrete store for the C4 witness: one telemetry row assigned to a
zone with geometry, empty alerts table. -/
def dbC4 : Db :=
  { telemetry := [{ id := 1, auv_id := "AUV-1", timestamp := "t0",
                    zone_id := some "Z1", depth_m := none, velocity_knots := none,
                    temperature_c := none, turbidity := none, location_wkt := none,
                    hasGeom := true, zone_violation := none }],
    nextTelemetryId := 2,
    zones := [{ zone_id := "Z1", hasGeom := true }],
    auv_status := [],
    alerts := {} }

/-- The containment oracle for the C4 witness: always outside. -/
def containsC4 : String → Nat → Bool := fun _ _ => false

/-- Witness for C4: at the concrete store, an outside decision yields
the summary, sets the state and appends the critical alert row. -/
theorem c4_detect_zone_violation_behaviour_witness :
    (detect_zone_violation containsC4 dbC4 1).snd =
      some { type := "zone_violation", violation := "outside", zone_id := "Z1",
             telemetry_id := 1 } ∧
    ((detect_zone_violation containsC4 dbC4 1).fst.alerts.rows =
      dbC4.alerts.rows ++ [zoneAlertRow dbC4.alerts "AUV-1" 1 "Z1"]) := by
  have h := ((c4_detect_zone_violation_behaviour containsC4 dbC4 1).2
    { id := 1, auv_id := "AUV-1", timestamp := "t0",
      zone_id := some "Z1", depth_m := none, velocity_knots := none,
      temperature_c := none, turbidity := none, location_wkt := none,
      hasGeom := true, zone_violation := none } rfl rfl rfl rfl).2 rfl
  exact ⟨h.1, h.2.2 (by decide) rfl⟩

/- ### C6: telemetry durability under evaluator failure. -/

theorem find?_append_of_none {α : Type} (p : α → Bool) (l1 l2 : List α)
    (h : l1.find? p = none) : (l1 ++ l2).find? p = l2.find? p := by
  induction l1 with
  | nil => rfl
  | cons hd tl ih =>
    cases hp : p hd with
    | true =>
      exfalso
      simp [List.find?, hp] at h
    | false =>
      simp only [List.cons_append, List.find?, hp] at h ⊢
      exact ih h

/-- The store id invariant: every persisted telemetry id is below the
next value of the id sequence. -/
def DbIdsOk (db : Db) : Prop := ∀ r ∈ db.telemetry, r.id < db.nextTelemetryId

theorem fresh_id_not_found (db : Db) (hids : DbIdsOk db) :
    db.telemetry.find? (fun r => r.id == db.nextTelemetryId) = none := by
  refine List.find?_eq_none.mpr ?_
  intro x hx
  simp only [beq_iff_eq]
  exact Nat.ne_of_lt (hids x hx)

theorem detect_zone_violation_telemetry (contains : String → Nat → Bool)
    (db : Db) (tid : Nat) :
    (detect_zone_violation contains db tid).fst.telemetry = db.telemetry ∨
    ∃ v, (detect_zone_violation contains db tid).fst.telemetry =
      (_update_zone_violation db tid v).telemetry := by
  unfold detect_zone_violation
  dsimp only
  repeat' split
  all_goals first
    | (left; rfl)
    | (right; exact ⟨some "outside", rfl⟩)
    | (right; exact ⟨none, rfl⟩)

theorem detect_preserves_row (contains : String → Nat → Bool) (db : Db)
    (tid t2 : Nat) (r : TelemetryRow) (hr : lookupTelemetry db t2 = some r) :
    ∃ zv, lookupTelemetry (detect_zone_violation contains db tid).fst t2 =
      some { r with zone_violation := zv } := by
  rcases detect_zone_violation_telemetry contains db tid with h | ⟨v, h⟩
  · refine ⟨r.zone_violation, ?_⟩
    unfold lookupTelemetry at hr ⊢
    rw [h, hr]
  · have hlu := lookup_update_zone_violation db tid v t2
    have hgoal : lookupTelemetry (detect_zone_violation contains db tid).fst t2 =
        lookupTelemetry (_update_zone_violation db tid v) t2 := by
      unfold lookupTelemetry
      rw [h]
    by_cases hb : r.id = tid
    · refine ⟨v, ?_⟩
      rw [hgoal, hlu, hr]
      simp [hb]
    · refine ⟨r.zone_violation, ?_⟩
      rw [hgoal, hlu, hr]
      simp [hb]

/-- C6: with the telemetry write transaction committed first (phase 1 of
process_telemetry), the inserted point is already visible in the state
the evaluators receive, and no combination of evaluator-transaction
failures (or an escaping check_thresholds TypeError) removes or alters
the committed row, except for its zone_violation column which only the
zone evaluator may set. -/
theorem c6_telemetry_durable_under_evaluator_failure
    (contains : String → Nat → Bool) (now : String) (envDbFails zoneDbFails : Bool)
    (db0 : Db) (tel : TelemetryMsg) (auv : String)
    (hauv : tel.auv_id = some auv) (hids : DbIdsOk db0) :
    (∃ db1, ingest_telemetry db0 tel = some (db1, db0.nextTelemetryId) ∧
       lookupTelemetry db1 db0.nextTelemetryId = some (newTelemetryRow db0 auv tel)) ∧
    (∃ zv, lookupTelemetry
        (process_telemetry contains now false envDbFails zoneDbFails db0 tel).fst
        db0.nextTelemetryId =
      some { newTelemetryRow db0 auv tel with zone_violation := zv }) := by
  have hnone := fresh_id_not_found db0 hids
  have hfind : (db0.telemetry ++ [newTelemetryRow db0 auv tel]).find?
      (fun r => r.id == db0.nextTelemetryId) = some (newTelemetryRow db0 auv tel) := by
    rw [find?_append_of_none _ _ _ hnone]
    simp [List.find?, newTelemetryRow]
  have hing : ingest_telemetry db0 tel =
      some (({ db0 with
                telemetry := db0.telemetry ++ [newTelemetryRow db0 auv tel],
                nextTelemetryId := db0.nextTelemetryId + 1,
                auv_status := upsert_last_seen db0.auv_status auv tel.timestamp } : Db),
            db0.nextTelemetryId) := by
    simp [ingest_telemetry, hauv]
  refine ⟨⟨_, hing, ?_⟩, ?_⟩
  · unfold lookupTelemetry
    exact hfind
  · unfold process_telemetry
    rw [hing]
    dsimp only
    have hzone : ∀ db2 : Db,
        db2.telemetry = db0.telemetry ++ [newTelemetryRow db0 auv tel] →
        ∃ zv, lookupTelemetry
            (if zoneDbFails then db2
             else (detect_zone_violation contains db2 db0.nextTelemetryId).fst)
            db0.nextTelemetryId =
          some { newTelemetryRow db0 auv tel with zone_violation := zv } := by
      intro db2 h2
      have hl2 : lookupTelemetry db2 db0.nextTelemetryId =
          some (newTelemetryRow db0 auv tel) := by
        unfold lookupTelemetry
        rw [h2]
        exact hfind
      by_cases hz : zoneDbFails
      · rw [if_pos hz]
        exact ⟨none, hl2⟩
      · rw [if_neg hz]
        exact detect_preserves_row contains db2 db0.nextTelemetryId db0.nextTelemetryId
          (newTelemetryRow db0 auv tel) hl2
    cases hchk : check_thresholds ENVIRONMENTAL_THRESHOLDS now tel with
    | error e =>
      refine ⟨none, ?_⟩
      simp only [Bool.false_eq_true, if_false]
      unfold lookupTelemetry
      exact hfind
    | ok report =>
      cases report with
      | none =>
        simp only [Bool.false_eq_true, if_false]
        exact hzone _ rfl
      | some rep =>
        simp only [Bool.false_eq_true, if_false]
        by_cases he : envDbFails = true
        · rw [if_pos he]
          exact hzone _ rfl
        · rw [if_neg he, hauv]
          exact hzone _ rfl

/-- Concrete inputs for the C6 witness: empty store, both evaluator
transactions failing. -/
def telC6 : TelemetryMsg :=
  { auv_id := some "AUV-1", timestamp := "2025-01-01T00:00:00Z",
    temperature_c := some (some (mkRat 7 2)) }

/-- The empty store. -/
def dbEmpty : Db := {}

/-- Witness for C6 at concrete inputs. -/
theorem c6_telemetry_durable_under_evaluator_failure_witness :
    (∃ db1, ingest_telemetry dbEmpty telC6 = some (db1, dbEmpty.nextTelemetryId) ∧
       lookupTelemetry db1 dbEmpty.nextTelemetryId =
         some (newTelemetryRow dbEmpty "AUV-1" telC6)) ∧
    (∃ zv, lookupTelemetry
        (process_telemetry containsC4 "now" false true true dbEmpty telC6).fst
        dbEmpty.nextTelemetryId =
      some { newTelemetryRow dbEmpty "AUV-1" telC6 with zone_violation := zv }) :=
  c6_telemetry_durable_under_evaluator_failure containsC4 "now" true true dbEmpty telC6
    "AUV-1" rfl (by intro r hr; simp [dbEmpty] at hr)

/- ### C3: insights clamps. -/

/-- Out-of-bounds window for the C3 counterexample. -/
def pC3 : InsightParams :=
  { auv_id := some "AUV-1", summary := true, window_minutes := 100000 }

/-- C3 counterexample: fetch_insights leaves an out-of-bounds
window_minutes unclamped, and the HTTP endpoint rejects an out-of-bounds
limit instead of clamping it, so the claim fails as stated. -/
theorem c3_clamp_counterexample :
    (clampInsightParams pC3).window_minutes = 100000 ∧
    (clampInsightParams pC3).window_minutes ≠ 1440 ∧
    insights_endpoint_accepts 0 20 30 = false :=
  ⟨rfl, by decide, by decide⟩

/-- C3 as amended: fetch_insights clamps limit to [1, 100] and
timeseries_limit to [10, 200] (leaving in-bounds values unchanged) and
silently drops unknown timeseries_fields, but window_minutes passes
through unclamped; the ge and le bounds of the endpoint reject, not
clamp. -/
theorem c3_clamp_amended (p : InsightParams) :
    1 ≤ (clampInsightParams p).limit ∧ (clampInsightParams p).limit ≤ 100 ∧
    (1 ≤ p.limit → p.limit ≤ 100 → (clampInsightParams p).limit = p.limit) ∧
    10 ≤ (clampInsightParams p).timeseries_limit ∧
    (clampInsightParams p).timeseries_limit ≤ 200 ∧
    (10 ≤ p.timeseries_limit → p.timeseries_limit ≤ 200 →
      (clampInsightParams p).timeseries_limit = p.timeseries_limit) ∧
    (clampInsightParams p).window_minutes = p.window_minutes ∧
    (∀ f ∈ requestedTimeseriesFields p, f ∈ TIMESERIES_ALLOWED_FIELDS) := by
  refine ⟨?_, ?_, ?_, ?_, ?_, ?_, rfl, ?_⟩
  · simp only [clampInsightParams]
    omega
  · simp only [clampInsightParams]
    omega
  · intro h1 h2
    simp only [clampInsightParams]
    omega
  · simp only [clampInsightParams]
    omega
  · simp only [clampInsightParams]
    omega
  · intro h1 h2
    simp only [clampInsightParams]
    omega
  · intro f hf
    unfold requestedTimeseriesFields at hf
    cases hts : p.timeseries_fields with
    | none =>
      rw [hts] at hf
      exact hf
    | some fs =>
      rw [hts] at hf
      dsimp only at hf
      by_cases he : fs.isEmpty = true
      · rw [if_pos he] at hf
        exact hf
      · rw [if_neg he] at hf
        have hm := List.mem_filter.mp hf
        simpa using hm.2

/-- Default parameters for the C3 witness. -/
def pC3def : InsightParams := {}

/-- Witness for C3 as amended, at the default parameters. -/
theorem c3_clamp_amended_witness :
    (clampInsightParams pC3def).limit = pC3def.limit ∧
    (clampInsightParams pC3def).timeseries_limit = pC3def.timeseries_limit ∧
    (clampInsightParams pC3def).window_minutes = pC3def.window_minutes ∧
    "temperature_c" ∈ TIMESERIES_ALLOWED_FIELDS :=
  ⟨(c3_clamp_amended pC3def).2.2.1 (by decide) (by decide),
   (c3_clamp_amended pC3def).2.2.2.2.2.1 (by decide) (by decide),
   (c3_clamp_amended pC3def).2.2.2.2.2.2.1,
   (c3_clamp_amended pC3def).2.2.2.2.2.2.2 "temperature_c" (by decide)⟩

/- ### C7: broadcast cleanup deadlock. -/

theorem broadcast_raise_blocks (connected raises : Nat → Bool) (s : HubState)
    (hunlocked : s.locked = false)
    (hraise : ∃ c ∈ s.active_connections, connected c = true ∧ raises c = true) :
    cm_broadcast connected raises s = none := by
  unfold cm_broadcast
  have hacq : lockAcquire s = some { s with locked := true } := by
    simp [lockAcquire, hunlocked]
  rw [hacq]
  dsimp only
  obtain ⟨c, hc, hcon, hr⟩ := hraise
  have hmem : c ∈ s.active_connections.filter (fun x => connected x && raises x) := by
    simp only [List.mem_filter]
    exact ⟨hc, by simp [hcon, hr]⟩
  have hblocked : ∀ l : List Nat, c ∈ l →
      l.foldlM (fun st x => cm_disconnect x st) ({ s with locked := true } : HubState) =
        none := by
    intro l hl
    cases l with
    | nil => cases hl
    | cons c0 cs => simp [List.foldlM, cm_disconnect, lockAcquire]
  rw [hblocked _ hmem]

/-- Hub with one subscriber for the C7 evaluation. -/
def hubC7 : HubState := { locked := false, active_connections := [0] }

/-- C7 (code evaluation at the failing input): with one connected
subscriber whose send raises, the broadcast never completes, because the
cleanup calls disconnect which re-acquires the non-reentrant hub lock
the broadcast still holds; with no raising subscriber the broadcast
completes and releases the lock. -/
theorem c7_broadcast_cleanup_deadlocks :
    cm_broadcast (fun _ => true) (fun _ => true) hubC7 = none ∧
    cm_broadcast (fun _ => true) (fun _ => false) hubC7 = some hubC7 :=
  ⟨broadcast_raise_blocks (fun _ => true) (fun _ => true) hubC7 rfl
      ⟨0, by simp [hubC7], rfl, rfl⟩,
   rfl⟩

/- ### C10: dead-vehicle scanner error handling. -/

theorem dead_auv_tick_payloads (timeout : Nat)
    (readResult : Except String (List (String × String)))
    (writeFails : String → Bool) (db : AlertsDb) :
    (dead_auv_tick timeout readResult writeFails db).snd =
      match readResult with
      | .ok dead_auvs => dead_auvs.map (deadPayload timeout)
      | .error _ => [] := by
  cases readResult with
  | error e => rfl
  | ok dead_auvs =>
    suffices h : ∀ (acc : AlertsDb × List DeadPayload),
        (dead_auvs.foldl
          (fun acc p =>
            let db1 :=
              if writeFails p.fst then acc.fst
              else (create_dead_auv_alert_generic acc.fst p.fst p.snd timeout).fst
            (db1, acc.snd ++ [deadPayload timeout p]))
          acc).snd = acc.snd ++ dead_auvs.map (deadPayload timeout) by
      simpa [dead_auv_tick] using h (db, [])
    induction dead_auvs with
    | nil => intro acc; simp
    | cons p ps ih =>
      intro acc
      simp only [List.foldl_cons, List.map_cons]
      rw [ih]
      simp

/-- C10: over any finite sequence of scanner ticks, the emitted payloads
are exactly one per overdue vehicle of every tick whose overdue read
succeeded, regardless of which per-vehicle alert writes raise and of the
alerts-table state, and a tick whose read raises only skips its own
payloads: the loop keeps processing later ticks. -/
theorem c10_dead_auv_scanner_payloads (timeout : Nat) (ticks : List TickInput)
    (db : AlertsDb) :
    (dead_auv_run timeout ticks db).snd =
      (ticks.map (fun t =>
        match t.readResult with
        | .ok dead_auvs => dead_auvs.map (deadPayload timeout)
        | .error _ => [])).flatten := by
  suffices h : ∀ (acc : AlertsDb × List DeadPayload),
      (ticks.foldl
        (fun acc t =>
          let r := dead_auv_tick timeout t.readResult t.writeFails acc.fst
          (r.fst, acc.snd ++ r.snd))
        acc).snd =
      acc.snd ++ (ticks.map (fun t =>
        match t.readResult with
        | .ok dead_auvs => dead_auvs.map (deadPayload timeout)
        | .error _ => [])).flatten by
    simpa [dead_auv_run] using h (db, [])
  induction ticks with
  | nil => intro acc; simp
  | cons t ts ih =>
    intro acc
    simp only [List.foldl_cons, List.map_cons, List.flatten]
    rw [ih]
    rw [dead_auv_tick_payloads]
    simp [List.append_assoc]

/-- Witness inputs for C10: a write failure in tick one, a read failure
in tick two, a clean tick three. -/
def ticksC10 : List TickInput :=
  [{ readResult := .ok [("A", "t1")], writeFails := fun _ => true },
   { readResult := .error "db down", writeFails := fun _ => false },
   { readResult := .ok [("B", "t2")], writeFails := fun _ => false }]

/-- Witness for C10 at concrete ticks: the first payload is still
emitted despite its write failing, and the third tick still runs after
the failing second tick. -/
theorem c10_dead_auv_scanner_payloads_witness :
    (dead_auv_run 60 ticksC10 emptyAlertsDb).snd =
      [deadPayload 60 ("A", "t1"), deadPayload 60 ("B", "t2")] := by
  rw [c10_dead_auv_scanner_payloads]
  rfl

/- ### C8: WKT round trip. -/

theorem floatTok_nonempty {l : List Char} (h : isFloatTok l = true) : l ≠ [] := by
  intro hl
  subst hl
  simp [isFloatTok] at h

theorem floatTok_chars {l : List Char} (h : isFloatTok l = true) :
    ∀ c ∈ l, isFloatChar c = true := by
  have := (Bool.and_eq_true _ _).mp h
  exact fun c hc => List.all_eq_true.mp this.2 c hc

theorem floatChar_cases {c : Char} (h : isFloatChar c = true) :
    c = '0' ∨ c = '1' ∨ c = '2' ∨ c = '3' ∨ c = '4' ∨ c = '5' ∨ c = '6' ∨
    c = '7' ∨ c = '8' ∨ c = '9' ∨ c = '.' ∨ c = '-' ∨ c = '+' ∨ c = 'e' := by
  unfold isFloatChar at h
  simp at h
  tauto

theorem floatChar_not_space {c : Char} (h : isFloatChar c = true) :
    pySpace c = false := by
  rcases floatChar_cases h with rfl | rfl | rfl | rfl | rfl | rfl | rfl | rfl | rfl |
    rfl | rfl | rfl | rfl | rfl <;> decide

theorem floatChar_not_comma {c : Char} (h : isFloatChar c = true) :
    (c == ',') = false := by
  rcases floatChar_cases h with rfl | rfl | rfl | rfl | rfl | rfl | rfl | rfl | rfl |
    rfl | rfl | rfl | rfl | rfl <;> decide

theorem dropWhile_nospace (l : List Char)
    (h : ∀ c ∈ l, pySpace c = false) : l.dropWhile pySpace = l := by
  cases l with
  | nil => rfl
  | cons x xs => simp [List.dropWhile_cons, h x (List.mem_cons_self x xs)]

theorem pyStrip_nospace (l : List Char)
    (h : ∀ c ∈ l, pySpace c = false) : pyStrip l = l := by
  unfold pyStrip
  rw [dropWhile_nospace l h]
  rw [dropWhile_nospace l.reverse (fun c hc => h c (List.mem_reverse.mp hc))]
  exact List.reverse_reverse l

theorem pyStrip_sandwich (c1 : Char) (mid : List Char) (c2 : Char)
    (h1 : pySpace c1 = false) (h2 : pySpace c2 = false) :
    pyStrip (c1 :: (mid ++ [c2])) = c1 :: (mid ++ [c2]) := by
  unfold pyStrip
  rw [List.dropWhile_cons]
  rw [h1]
  simp only [Bool.false_eq_true, if_false]
  have hrev : (c1 :: (mid ++ [c2])).reverse = c2 :: (mid.reverse ++ [c1]) := by
    simp
  rw [hrev, List.dropWhile_cons, h2]
  simp only [Bool.false_eq_true, if_false]
  rw [← hrev, List.reverse_reverse]

theorem pyStartsWith_append (p x : List Char) : pyStartsWith (p ++ x) p = true := by
  induction p with
  | nil =>
    cases x <;> rfl
  | cons c cs ih => simp [pyStartsWith, ih]

theorem pyReplace_no_comma (l : List Char)
    (h : ∀ c ∈ l, (c == ',') = false) : pyReplace l ',' ' ' = l := by
  induction l with
  | nil => rfl
  | cons x xs ih =>
    have hx := h x (List.mem_cons_self x xs)
    simp only [pyReplace, List.map_cons] at *
    rw [hx]
    simp only [Bool.false_eq_true, if_false]
    rw [ih (fun c hc => h c (List.mem_cons_of_mem x hc))]

theorem pySplitGo_token (t : List Char) (rest acc : List Char)
    (h : ∀ c ∈ t, pySpace c = false) :
    pySplitGo (t ++ rest) acc = pySplitGo rest (t.reverse ++ acc) := by
  induction t generalizing acc with
  | nil => simp
  | cons c cs ih =>
    have hc := h c (List.mem_cons_self c cs)
    calc pySplitGo ((c :: cs) ++ rest) acc
        = pySplitGo (cs ++ rest) (c :: acc) := by
          simp [pySplitGo, hc]
      _ = pySplitGo rest (cs.reverse ++ (c :: acc)) :=
          ih (c :: acc) (fun x hx => h x (List.mem_cons_of_mem c hx))
      _ = pySplitGo rest ((c :: cs).reverse ++ acc) := by simp

theorem pySplit_two_tokens (a b : List Char) (haNe : a ≠ []) (hbNe : b ≠ [])
    (ha : ∀ c ∈ a, pySpace c = false) (hb : ∀ c ∈ b, pySpace c = false) :
    pySplit (a ++ ' ' :: b) = [a, b] := by
  unfold pySplit
  rw [pySplitGo_token a (' ' :: b) [] ha]
  have hsp : pySpace ' ' = true := by decide
  have haccNe : (a.reverse ++ ([] : List Char)).isEmpty = false := by
    simp [haNe]
  have hstep : pySplitGo (' ' :: b) (a.reverse ++ []) =
      (a.reverse ++ []).reverse :: pySplitGo b [] := by
    simp only [pySplitGo, hsp, if_true, haccNe, Bool.false_eq_true, if_false]
  rw [hstep]
  have h1 : (a.reverse ++ ([] : List Char)).reverse = a := by simp
  rw [h1]
  have hb2 : pySplitGo b [] = [b] := by
    have hbt := pySplitGo_token b [] [] hb
    rw [List.append_nil] at hbt
    rw [hbt]
    have hbrevNe : (b.reverse ++ ([] : List Char)).isEmpty = false := by
      simp [hbNe]
    simp only [pySplitGo, hbrevNe, Bool.false_eq_true, if_false]
    simp
  rw [hb2]

theorem pyFloatOfStr_tok (a : List Char) (ha : isFloatTok a = true) :
    pyFloatOfStr a = some ⟨a, ha⟩ := by
  unfold pyFloatOfStr
  rw [pyStrip_nospace a (fun c hc => floatChar_not_space (floatTok_chars ha c hc))]
  rw [dif_pos ha]

theorem parse_point_concrete (a b : List Char)
    (ha : isFloatTok a = true) (hb : isFloatTok b = true) :
    _parse_point_wkt (some (POINT_PREFIX ++ a ++ [' '] ++ b ++ [')'])) =
      some (⟨a, ha⟩, ⟨b, hb⟩) := by
  have haS : ∀ c ∈ a, pySpace c = false :=
    fun c hc => floatChar_not_space (floatTok_chars ha c hc)
  have hbS : ∀ c ∈ b, pySpace c = false :=
    fun c hc => floatChar_not_space (floatTok_chars hb c hc)
  have haNe : a ≠ [] := floatTok_nonempty ha
  have hbNe : b ≠ [] := floatTok_nonempty hb
  have h0 : (POINT_PREFIX ++ a ++ [' '] ++ b ++ [')']).isEmpty = false := by
    simp [POINT_PREFIX]
  have hw1 : POINT_PREFIX ++ a ++ [' '] ++ b ++ [')'] =
      'P' :: ((['O', 'I', 'N', 'T', '('] ++ a ++ [' '] ++ b) ++ [')']) := by
    simp [POINT_PREFIX, List.append_assoc]
  have hstrip : pyStrip (POINT_PREFIX ++ a ++ [' '] ++ b ++ [')']) =
      POINT_PREFIX ++ a ++ [' '] ++ b ++ [')'] := by
    rw [hw1]
    exact pyStrip_sandwich 'P' _ ')' (by decide) (by decide)
  have hupper : pyStartsWith (pyUpper (POINT_PREFIX ++ a ++ [' '] ++ b ++ [')']))
      POINT_PREFIX = true := by
    have hw2 : POINT_PREFIX ++ a ++ [' '] ++ b ++ [')'] =
        POINT_PREFIX ++ (a ++ [' '] ++ b ++ [')']) := by
      simp [List.append_assoc]
    rw [hw2]
    unfold pyUpper
    rw [List.map_append]
    rw [show List.map Char.toUpper POINT_PREFIX = POINT_PREFIX from by decide]
    exact pyStartsWith_append POINT_PREFIX _
  have hends : pyEndsWith (POINT_PREFIX ++ a ++ [' '] ++ b ++ [')']) [')'] = true := by
    unfold pyEndsWith
    rw [show (POINT_PREFIX ++ a ++ [' '] ++ b ++ [')']).reverse =
        ')' :: (POINT_PREFIX ++ a ++ [' '] ++ b).reverse from by simp]
    simp [pyStartsWith]
  have hfind : pyFindChar (POINT_PREFIX ++ a ++ [' '] ++ b ++ [')']) '(' = 5 := by
    have hw3 : POINT_PREFIX ++ a ++ [' '] ++ b ++ [')'] =
        'P' :: 'O' :: 'I' :: 'N' :: 'T' :: '(' :: (a ++ [' '] ++ b ++ [')']) := by
      simp [POINT_PREFIX, List.append_assoc]
    rw [hw3]
    simp [pyFindChar, pyFindCharGo]
  have htake : (POINT_PREFIX ++ a ++ [' '] ++ b ++ [')']).take
      ((POINT_PREFIX ++ a ++ [' '] ++ b ++ [')']).length - 1) =
      POINT_PREFIX ++ a ++ [' '] ++ b := by
    have hlen : (POINT_PREFIX ++ a ++ [' '] ++ b ++ [')']).length - 1 =
        (POINT_PREFIX ++ a ++ [' '] ++ b).length := by
      simp
      omega
    rw [hlen]
    exact List.take_left _ _
  have hdrop : (POINT_PREFIX ++ a ++ [' '] ++ b).drop 6 = a ++ [' '] ++ b := by
    have hw4 : POINT_PREFIX ++ a ++ [' '] ++ b =
        'P' :: 'O' :: 'I' :: 'N' :: 'T' :: '(' :: (a ++ [' '] ++ b) := by
      simp [POINT_PREFIX, List.append_assoc]
    rw [hw4]
    rfl
  have hcomma : ∀ c ∈ a ++ [' '] ++ b, (c == ',') = false := by
    intro c hc
    rcases List.mem_append.mp hc with hc1 | hc2
    · rcases List.mem_append.mp hc1 with hc3 | hc4
      · exact floatChar_not_comma (floatTok_chars ha c hc3)
      · have hsp : c = ' ' := by simpa using hc4
        subst hsp
        decide
    · exact floatChar_not_comma (floatTok_chars hb c hc2)
  have hreplace : pyReplace (a ++ [' '] ++ b) ',' ' ' = a ++ [' '] ++ b :=
    pyReplace_no_comma _ hcomma
  have hsplit : pySplit (a ++ [' '] ++ b) = [a, b] := by
    rw [show a ++ [' '] ++ b = a ++ (' ' :: b) from by simp]
    exact pySplit_two_tokens a b haNe hbNe haS hbS
  unfold _parse_point_wkt
  simp only [h0, Bool.false_eq_true, if_false]
  rw [hstrip]
  simp only [hupper, hends, Bool.not_true, Bool.or_self, Bool.false_eq_true, if_false]
  rw [hfind]
  simp only [show ((5 : Int) + 1).toNat = 6 from rfl]
  rw [htake, hdrop, hreplace, hsplit]
  dsimp only
  rw [pyFloatOfStr_tok a ha, pyFloatOfStr_tok b hb]

/-- C8: parsing the WKT produced at ingest recovers the coordinates as
(lon, lat) for every pair of finite floats, and wkt_from_latlon returns
None exactly when a coordinate is absent or float() fails on it. -/
theorem c8_wkt_round_trip :
    (∀ fla flo : PyFloat,
      _parse_point_wkt (wkt_from_latlon (some (PyVal.pnum fla)) (some (PyVal.pnum flo))) =
        some (flo, fla)) ∧
    (∀ lat lon : Option PyVal,
      wkt_from_latlon lat lon = none ↔
        (lat.bind pyToFloat = none ∨ lon.bind pyToFloat = none)) := by
  constructor
  · intro fla flo
    have h1 : wkt_from_latlon (some (PyVal.pnum fla)) (some (PyVal.pnum flo)) =
        some (POINT_PREFIX ++ flo.val ++ [' '] ++ fla.val ++ [')']) := rfl
    rw [h1, parse_point_concrete flo.val fla.val flo.property fla.property]
  · intro lat lon
    cases lat with
    | none => simp [wkt_from_latlon]
    | some la =>
      cases lon with
      | none => simp [wkt_from_latlon]
      | some lo =>
        cases hlo : pyToFloat lo <;> cases hla : pyToFloat la <;>
          simp [wkt_from_latlon, hlo, hla]

/-- A concrete latitude token for the C8 witness. -/
def fLat : PyFloat := ⟨['1', '0', '.', '5'], by decide⟩

/-- A concrete longitude token for the C8 witness. -/
def fLon : PyFloat := ⟨['-', '1', '2', '5', '.', '5'], by decide⟩

/-- Witness for C8 at concrete coordinates (10.5, -125.5), plus the
None case for a non-convertible latitude. -/
theorem c8_wkt_round_trip_witness :
    _parse_point_wkt (wkt_from_latlon (some (PyVal.pnum fLat)) (some (PyVal.pnum fLon))) =
      some (fLon, fLat) ∧
    wkt_from_latlon (some PyVal.pother) (some (PyVal.pnum fLon)) = none :=
  ⟨c8_wkt_round_trip.1 fLat fLon,
   (c8_wkt_round_trip.2 (some PyVal.pother) (some (PyVal.pnum fLon))).mpr (Or.inl rfl)⟩

end DSG
